import Mathlib

/-!
Shallow embedding of the registration / bib-allocation / metrics core of the
Data-Engagement-Dashboard repository (App/controllers/hr.py,
App/controllers/admin.py, App/models/user.py).

The entity store is modelled as lists of records (one list per table), with
auto-increment primary keys made explicit where a controller depends on them.
Python `int(...)` parsing, `round(x, 1)` (half-to-even, modelled exactly over
ℚ rather than over IEEE floats) and date handling are given executable models.
-/

namespace App

/-- Python `str.strip()` over the character list. -/
def stripChars (cs : List Char) : List Char :=
  ((cs.dropWhile Char.isWhitespace).reverse.dropWhile Char.isWhitespace).reverse

/-- Python `str.strip()`. -/
def pyStrip (s : String) : String := ⟨stripChars s.data⟩

/-- Python `str.upper()` (ASCII). -/
def pyUpper (s : String) : String := ⟨s.data.map Char.toUpper⟩

/-- Python `s[:1]`. -/
def pyTake1 (s : String) : String := ⟨s.data.take 1⟩

/-- Split a character list on a separator character (Python `str.split(sep)`
for a one-character separator). -/
def splitOnChar (sep : Char) (cs : List Char) : List (List Char) :=
  cs.foldr
    (fun c acc =>
      match acc with
      | g :: gs => if c = sep then [] :: g :: gs else (c :: g) :: gs
      | [] => [[c]])
    [[]]

/-- Model of Python `int(s)` applied to a string: strip whitespace, optional
sign, then digits possibly separated by single underscores.  `none` models the
`ValueError` branch. -/
def pyDigitsAux : List Char → Nat → Option Nat
  | [], acc => some acc
  | '_' :: c :: cs, acc =>
      if c.isDigit then pyDigitsAux cs (acc * 10 + (c.toNat - '0'.toNat)) else none
  | c :: cs, acc =>
      if c.isDigit then pyDigitsAux cs (acc * 10 + (c.toNat - '0'.toNat)) else none

def pyInt? (s : String) : Option Int :=
  match stripChars s.data with
  | '-' :: c :: cs =>
      if c.isDigit then (pyDigitsAux cs (c.toNat - '0'.toNat)).map (fun n => -(n : Int)) else none
  | '+' :: c :: cs =>
      if c.isDigit then (pyDigitsAux cs (c.toNat - '0'.toNat)).map (fun n => (n : Int)) else none
  | c :: cs =>
      if c.isDigit then (pyDigitsAux cs (c.toNat - '0'.toNat)).map (fun n => (n : Int)) else none
  | [] => none

/-- Floor of a rational as an integer (`Int.fdiv` floors, matching `⌊·⌋`). -/
def ratFloor (x : ℚ) : ℤ := Int.fdiv x.num x.den

/-- Model of Python `round(x)` to an integer: round half to even. -/
def pyRound (x : ℚ) : ℤ :=
  let f := ratFloor x
  let frac : ℚ := x - (f : ℚ)
  if frac < 1/2 then f
  else if 1/2 < frac then f + 1
  else if f % 2 = 0 then f else f + 1

/-- Model of Python `round(x, 1)`: the value in tenths is `pyRound (10*x)`. -/
def pyRound1 (x : ℚ) : ℚ := (pyRound (10 * x) : ℚ) / 10

/-- Decimal rendering of `t/10` as Python prints a one-decimal float. -/
def fmtTenths (t : ℤ) : String :=
  let sign := if t < 0 then "-" else ""
  let a := t.natAbs
  sign ++ toString (a / 10) ++ "." ++ toString (a % 10)

/-- The `pct` helper of `api_metrics`:
`f'{round(n / total * 100, 1)}%' if total else '0%'`. -/
def pct (n : ℤ) (total : ℕ) : String :=
  if total = 0 then "0%"
  else fmtTenths (pyRound ((n * 1000 : ℚ) / (total : ℚ))) ++ "%"

/-! ## Entity store (App/models/user.py)

Records carry the fields the controllers read or write.  Dates are modelled as
proleptic-Gregorian day ordinals (`Int`), so Python `(d2 - d1).days` is plain
subtraction.  `SeasonEvent.status` and `BibNo.bib_value` appear here because
the controllers read and write them (the model file sets `bib_value` in
`__init__` and the spec's data model declares `status`). -/

structure User where
  id : Nat
  role : String
  deriving DecidableEq

structure Institution where
  id : Nat
  name : String
  code : String
  deriving DecidableEq

structure Season where
  id : Nat
  year : Int
  deriving DecidableEq

structure Event where
  id : Nat
  name : String
  event_type : String
  deriving DecidableEq

structure SeasonEvent where
  id : Nat
  season_id : Nat
  event_id : Nat
  status : String
  deriving DecidableEq

structure Stage where
  id : Nat
  season_event_id : Nat
  stage_number : Option Int
  location : Option String
  deriving DecidableEq

structure Participant where
  id : Nat
  first_name : String
  last_name : String
  birth_date : Option Int
  sex : Option String
  division : Option String
  contact : Option String
  email : Option String
  institution_id : Nat
  deriving DecidableEq

structure Registration where
  id : Nat
  participant_id : Nat
  season_event_id : Nat
  deriving DecidableEq

structure BibNo where
  id : Nat
  bib_value : String
  season_id : Nat
  institution_id : Option Nat
  deriving DecidableEq

structure BibNoAssignment where
  registration_id : Nat
  bib_no_id : Nat
  deriving DecidableEq

structure Result where
  id : Nat
  registration_id : Nat
  stage_id : Nat
  placement : Option Int
  deriving DecidableEq

/-- The whole store.  `nextRegId` / `nextBibId` make the auto-increment primary
keys explicit for the rows `register_participant_for_events` inserts. -/
structure DB where
  users : List User
  institutions : List Institution
  seasons : List Season
  events : List Event
  seasonEvents : List SeasonEvent
  stages : List Stage
  participants : List Participant
  registrations : List Registration
  bibNos : List BibNo
  bibNoAssignments : List BibNoAssignment
  results : List Result
  nextRegId : Nat
  nextBibId : Nat
  nextPartId : Nat
  deriving DecidableEq

/-! ## Bib Allocator (hr.py `_next_bib`) -/

/-- `order_by(BibNo.id.desc()).first()` over a filtered table: the matching row
with the greatest primary key (the most recently created one). -/
def latestBibBy (l : List BibNo) : Option BibNo :=
  l.argmax (fun b => b.id)

def bibsFor (db : DB) (season_id institution_id : Nat) : List BibNo :=
  db.bibNos.filter (fun b => b.season_id == season_id && b.institution_id == some institution_id)

/-- hr.py 337-349: auto-generate the next bib number for an
institution/season.  The `try: int(...) + 1 except ValueError: pass` is the
match on `pyInt?`; the fallthrough returns `str(1001 + count)`. -/
def _next_bib (db : DB) (season_id institution_id : Nat) : String :=
  let existing := latestBibBy (bibsFor db season_id institution_id)
  let fallback := toString (1001 + (bibsFor db season_id institution_id).length)
  match existing with
  | some b =>
      match pyInt? b.bib_value with
      | some n => toString (n + 1)
      | none => fallback
  | none => fallback

/-! ## Registration Service (hr.py `register_participant_for_events`) -/

structure CreatedEntry where
  registration_id : Nat
  event_name : Option String
  bib_no : String
  deriving DecidableEq

/-- Body of the `for se_id in season_event_ids` loop: skip when the
SeasonEvent id does not resolve, skip when a Registration already exists for
(participant, season_event), otherwise insert Registration, BibNo and
BibNoAssignment. -/
def registerOne (institution_id : Nat) (p : Participant) :
    DB × List CreatedEntry → Nat → DB × List CreatedEntry
  | (db, created), se_id =>
    match db.seasonEvents.find? (fun se => se.id == se_id) with
    | none => (db, created)
    | some se =>
      if db.registrations.any
          (fun r => r.participant_id == p.id && r.season_event_id == se_id) then
        (db, created)
      else
        let reg : Registration := ⟨db.nextRegId, p.id, se_id⟩
        let db1 : DB :=
          { db with registrations := db.registrations ++ [reg], nextRegId := db.nextRegId + 1 }
        let bib_val := _next_bib db1 se.season_id institution_id
        let bib : BibNo := ⟨db1.nextBibId, bib_val, se.season_id, some institution_id⟩
        let db2 : DB :=
          { db1 with bibNos := db1.bibNos ++ [bib], nextBibId := db1.nextBibId + 1 }
        let asg : BibNoAssignment := ⟨reg.id, bib.id⟩
        let db3 : DB := { db2 with bibNoAssignments := db2.bibNoAssignments ++ [asg] }
        (db3, created ++
          [⟨reg.id, (db.events.find? (fun e => e.id == se.event_id)).map (fun e => e.name), bib_val⟩])

/-- hr.py 352-393.  Returns `((created, error), new store)`. -/
def register_participant_for_events (db : DB) (participant_id : Nat)
    (season_event_ids : List Nat) (institution_id : Nat) :
    (List CreatedEntry × Option String) × DB :=
  match db.participants.find?
      (fun p => p.id == participant_id && p.institution_id == institution_id) with
  | none => (([], some "Participant not found"), db)
  | some p =>
    let st := season_event_ids.foldl (registerOne institution_id p) (db, [])
    ((st.2, none), st.1)

/-- Registrations stored for one (participant, season-event) pair. -/
def regsForPair (db : DB) (pid se_id : Nat) : List Registration :=
  db.registrations.filter (fun r => r.participant_id == pid && r.season_event_id == se_id)

/-- Bib-number assignments attached to a registration of the pair. -/
def assignmentsForPair (db : DB) (pid se_id : Nat) : List BibNoAssignment :=
  db.bibNoAssignments.filter
    (fun a => (regsForPair db pid se_id).any (fun r => r.id == a.registration_id))

/-! ## Metrics Aggregator (admin.py) -/

/-- The filter applied to `registered` and `participated` in `api_metrics`:
when `season_id` is supplied the query joins `SeasonEvent` and filters on the
season, and only then the optional `event_id` filter is applied; with no
`season_id` there is no join at all (the `event_id` is ignored). -/
def seFilter (db : DB) (season_id event_id : Option Nat) (se_id : Nat) : Bool :=
  match season_id with
  | none => true
  | some sid =>
      db.seasonEvents.any (fun se =>
        se.id == se_id && se.season_id == sid &&
          (match event_id with
           | none => true
           | some eid => se.event_id == eid))

/-- The filter on `completed` in `api_metrics` (admin.py 382-392): only the
season is ever applied; the `event_id` parameter is not used on this query. -/
def seSeasonFilter (db : DB) (season_id : Option Nat) (se_id : Nat) : Bool :=
  match season_id with
  | none => true
  | some sid => db.seasonEvents.any (fun se => se.id == se_id && se.season_id == sid)

def registeredCount (db : DB) (season_id event_id : Option Nat) : Nat :=
  (db.registrations.filter (fun r => seFilter db season_id event_id r.season_event_id)).length

/-- `participated`: count of distinct `Result.registration_id` whose
Registration row exists (inner join) and passes the season/event filter. -/
def participatedCount (db : DB) (season_id event_id : Option Nat) : Nat :=
  (((db.results.filter (fun res =>
      db.registrations.any (fun r =>
        r.id == res.registration_id && seFilter db season_id event_id r.season_event_id))).map
    (fun res => res.registration_id)).dedup).length

/-- `completed`: Results with a non-null placement whose Registration exists,
filtered by season only (admin.py applies no event filter here). -/
def completedCount (db : DB) (season_id : Option Nat) : Nat :=
  (db.results.filter (fun res =>
      res.placement.isSome &&
        db.registrations.any (fun r =>
          r.id == res.registration_id && seSeasonFilter db season_id r.season_event_id))).length

structure Metrics where
  registered : Nat
  participated : Nat
  participated_pct : String
  no_shows : Int
  no_shows_pct : String
  completed : Nat
  completed_pct : String
  deriving DecidableEq

/-- admin.py 344-405, `GET /api/metrics?season_id=&event_id=`. -/
def api_metrics (db : DB) (season_id event_id : Option Nat) : Metrics :=
  let registered := registeredCount db season_id event_id
  let participated := participatedCount db season_id event_id
  let no_shows : Int := (registered : Int) - (participated : Int)
  let completed := completedCount db season_id
  { registered := registered
    participated := participated
    participated_pct := pct participated registered
    no_shows := no_shows
    no_shows_pct := pct no_shows registered
    completed := completed
    completed_pct := pct completed registered }

/-- Spec-side definition of `completed` (for the refinement check of claim C4):
"count of Results with non-null placement, filtered by season/event through
their Registration→SeasonEvent chain" — i.e. BOTH filters applied. -/
def specCompletedCount (db : DB) (season_id event_id : Option Nat) : Nat :=
  (db.results.filter (fun res =>
      res.placement.isSome &&
        db.registrations.any (fun r =>
          r.id == res.registration_id && seFilter db season_id event_id r.season_event_id))).length

/-! ### Funnel (admin.py `api_funnel`) -/

structure FunnelEntry where
  stage_number : Option Int
  location : Option String
  finishers : Nat
  drop_pct : ℚ
  deriving DecidableEq

structure FunnelResp where
  registered : Nat
  funnel : List FunnelEntry
  deriving DecidableEq

/-- `sorted(se.stages, key=lambda s: s.stage_number or 0)` — a stable sort on
the stage number with null treated as 0. -/
def stageKey (st : Stage) : Int := st.stage_number.getD 0

def sortStages (l : List Stage) : List Stage :=
  l.insertionSort (fun a b => stageKey a ≤ stageKey b)

/-- admin.py 471-506, `GET /api/funnel?season_id=&event_id=`.  `none` models
the 404 when the SeasonEvent does not resolve (both parameters are required
before this point). -/
def api_funnel (db : DB) (season_id event_id : Nat) : Option FunnelResp :=
  match db.seasonEvents.find?
      (fun se => se.season_id == season_id && se.event_id == event_id) with
  | none => none
  | some se =>
    let registered := (db.registrations.filter (fun r => r.season_event_id == se.id)).length
    let stages := sortStages (db.stages.filter (fun st => st.season_event_id == se.id))
    some
      { registered := registered
        funnel := stages.map (fun st =>
          let finishers := (db.results.filter (fun res => res.stage_id == st.id)).length
          { stage_number := st.stage_number
            location := st.location
            finishers := finishers
            drop_pct :=
              if registered ≠ 0 then
                pyRound1 ((1 - (finishers : ℚ) / (registered : ℚ)) * 100)
              else 0 }) }

/-! ### Participation by year (admin.py `api_participation_by_year`) -/

/-- Number of join rows Season⋈SeasonEvent⋈Registration carrying year `y`:
registrations whose SeasonEvent belongs to a Season with that year. -/
def regYearCount (db : DB) (y : Int) : Nat :=
  (db.registrations.filter (fun r =>
      db.seasonEvents.any (fun se =>
        se.id == r.season_event_id &&
          db.seasons.any (fun s => s.id == se.season_id && s.year == y)))).length

/-- The distinct years of the grouped query, ordered by year ascending. -/
def yearsWithRegs (db : DB) : List Int :=
  (((db.seasons.map (fun s => s.year)).filter (fun y => decide (0 < regYearCount db y))).dedup).insertionSort
    (fun a b => a ≤ b)

/-- `max(counts) if counts else 1`. -/
def maxYearCount (db : DB) : Nat :=
  match ((yearsWithRegs db).map (regYearCount db)).maximum with
  | none => 1
  | some m => m

structure YearEntry where
  year : Int
  count : Nat
  pct : Int
  deriving DecidableEq

/-- admin.py 443-468, `GET /api/participation-by-year`. -/
def api_participation_by_year (db : DB) : List YearEntry :=
  let max_c := maxYearCount db
  (yearsWithRegs db).map (fun y =>
    { year := y
      count := regYearCount db y
      pct := pyRound (((regYearCount db y : ℚ) / (max_c : ℚ)) * 100) })

/-! ### Stats (admin.py `api_stats`) -/

/-- `Season.query.order_by(Season.year.desc()).first()`: the season with the
greatest year (first encountered wins a tie, as years are unique). -/
def latestSeasonByYear (db : DB) : Option Season :=
  db.seasons.argmax (fun s => s.year)

/-- Spec-side definition (for claim C7): the most recently CREATED season,
i.e. the one with the greatest auto-increment primary key. -/
def latestSeasonById (db : DB) : Option Season :=
  db.seasons.argmax (fun s => s.id)

structure Stats where
  total_users : Nat
  active_events : Nat
  current_season : Option Int
  deriving DecidableEq

/-- admin.py 325-341, `GET /api/stats`.  `current_season = none` models the
`'—'` sentinel returned when no Season exists. -/
def api_stats (db : DB) : Stats :=
  { total_users := db.users.length
    active_events := (db.seasonEvents.filter (fun se => se.status == "active")).length
    current_season := (latestSeasonByYear db).map (fun s => s.year) }

/-! ## Dates and participant CRUD (hr.py, admin.py `_parse_date`) -/

def isLeap (y : Int) : Bool := (y % 4 == 0 && y % 100 != 0) || y % 400 == 0

def daysInMonth (y m : Int) : Int :=
  if m == 2 then (if isLeap y then 29 else 28)
  else if m == 4 || m == 6 || m == 9 || m == 11 then 30 else 31

/-- Proleptic-Gregorian day ordinal of (y, m, d) (days-from-civil algorithm);
any fixed epoch works since the code only ever subtracts two dates. -/
def daysFromCivil (y m d : Int) : Int :=
  let y2 := if m ≤ 2 then y - 1 else y
  let era := Int.fdiv y2 400
  let yoe := y2 - era * 400
  let mp := (m + 9) % 12
  let doy := Int.fdiv (153 * mp + 2) 5 + d - 1
  let doe := yoe * 365 + Int.fdiv yoe 4 - Int.fdiv yoe 100 + doy
  era * 146097 + doe

def parseNatDigits? (cs : List Char) : Option Nat :=
  if cs ≠ [] && cs.all Char.isDigit then
    some (cs.foldl (fun a c => a * 10 + (c.toNat - '0'.toNat)) 0)
  else none

/-- Model of parsing a `YYYY-MM-DD` string (both
`datetime.strptime(s, '%Y-%m-%d')` and `date.fromisoformat`): year, month and
day fields of digits, month 1-12, day valid for the month, year 1-9999;
`none` models the ValueError branch. -/
def isoParse? (s : String) : Option Int :=
  match splitOnChar '-' s.data with
  | [ys, ms, ds] =>
    match parseNatDigits? ys, parseNatDigits? ms, parseNatDigits? ds with
    | some y, some m, some d =>
        if 1 ≤ y && y ≤ 9999 && 1 ≤ m && m ≤ 12 && 1 ≤ d &&
            (d : Int) ≤ daysInMonth (y : Int) (m : Int) then
          some (daysFromCivil (y : Int) (m : Int) (d : Int))
        else none
    | _, _, _ => none
  | _ => none

/-- admin.py 523-531: safely parse a `YYYY-MM-DD` string to a date, or return
None — the ValueError is caught, never propagated. -/
def _parse_date (value : Option String) : Option Int :=
  match value with
  | none => none
  | some s => if s = "" then none else isoParse? s

/-- hr.py 117-133: auto-calculate the division code from sex and birth date
(the date-typed path used by the participant flows; `today` stands for
`date.today()`).  `none` models both falsy inputs and the except branch. -/
def _calc_division (sex : Option String) (birth_date : Option Int) (today : Int) :
    Option String :=
  match sex, birth_date with
  | some sx, some bd =>
      if sx = "" then none
      else
        let age := Int.fdiv (today - bd) 365
        let pfx := String.singleton (sx.toList.headD ' ').toUpper
        let sfx :=
          if age < 20 then "2029"
          else if age < 30 then "3039"
          else if age < 40 then "4049"
          else if age < 50 then "5059"
          else "60+"
        some (pfx ++ sfx)
  | _, _ => none

/-- The body a POST /hr participant create sends; `none` models an absent or
null key (`data.get(...)`). -/
structure PartInput where
  first_name : Option String
  last_name : Option String
  birth_date : Option String
  sex : Option String
  division : Option String
  email : Option String
  contact : Option String

/-- hr.py 214-241: create a single participant.  Returns
`((participant, error), new store)`; an unparseable `birth_date` returns the
error string `'Invalid birth_date format: ...'` and leaves the store alone. -/
def create_participant (db : DB) (data : PartInput) (institution_id : Nat)
    (today : Int) : (Option Participant × Option String) × DB :=
  let fn := pyStrip (data.first_name.getD "")
  let ln := pyStrip (data.last_name.getD "")
  if fn = "" || ln = "" then ((none, some "first_name and last_name are required"), db)
  else
    let bd_str : Option String :=
      match data.birth_date with
      | some s => if s = "" then none else some s
      | none => none
    let bdRes : Except String (Option Int) :=
      match bd_str with
      | none => Except.ok none
      | some s =>
          match isoParse? s with
          | some d => Except.ok (some d)
          | none => Except.error ("Invalid birth_date format: " ++ s)
    match bdRes with
    | Except.error e => ((none, some e), db)
    | Except.ok bd =>
      let sexStr := pyTake1 (pyUpper (pyStrip (data.sex.getD "")))
      let sex : Option String := if sexStr = "" then none else some sexStr
      let div : Option String :=
        if sex.isSome && bd.isSome then _calc_division sex bd today
        else
          match data.division with
          | some s => if s = "" then none else some s
          | none => none
      let p : Participant :=
        { id := db.nextPartId, first_name := fn, last_name := ln,
          birth_date := bd, sex := sex, division := div,
          email :=
            (if pyStrip (data.email.getD "") = "" then none
             else some (pyStrip (data.email.getD ""))),
          contact :=
            (if pyStrip (data.contact.getD "") = "" then none
             else some (pyStrip (data.contact.getD ""))),
          institution_id := institution_id }
      ((some p, none),
        { db with participants := db.participants ++ [p], nextPartId := db.nextPartId + 1 })

/-- The body of a PUT participant update.  The outer `Option` models
`'key' in data`; for `sex` and `birth_date` the inner `Option` models a null
value. -/
structure UpdateData where
  first_name : Option String
  last_name : Option String
  email : Option String
  contact : Option String
  sex : Option (Option String)
  birth_date : Option (Option String)

def applyBasicUpdates (p : Participant) (data : UpdateData) : Participant :=
  let p := match data.first_name with
    | some s => { p with first_name := pyStrip s }
    | none => p
  let p := match data.last_name with
    | some s => { p with last_name := pyStrip s }
    | none => p
  let p := match data.email with
    | some s => { p with email := if pyStrip s = "" then none else some (pyStrip s) }
    | none => p
  let p := match data.contact with
    | some s => { p with contact := if pyStrip s = "" then none else some (pyStrip s) }
    | none => p
  match data.sex with
  | some v =>
      let s := pyTake1 (pyUpper (v.getD ""))
      { p with sex := if s = "" then none else some s }
  | none => p

/-- The `'birth_date' in data and data['birth_date']` branch: parse and set,
return the `'Invalid birth_date'` error on a ValueError, skip otherwise. -/
def updateBirthDate (p : Participant) (v : Option (Option String)) :
    Except String Participant :=
  match v with
  | some (some s) =>
      if s ≠ "" then
        match isoParse? s with
        | some d => Except.ok { p with birth_date := some d }
        | none => Except.error "Invalid birth_date"
      else Except.ok p
  | _ => Except.ok p

/-- `p.division = _calc_division(p.sex, p.birth_date) or p.division` — the
old value is kept when the calculation yields None. -/
def recalcDivision (p : Participant) (today : Int) : Participant :=
  { p with division :=
      match _calc_division p.sex p.birth_date today with
      | some d => some d
      | none => p.division }

/-- hr.py 244-262. -/
def update_participant (db : DB) (participant_id : Nat) (data : UpdateData)
    (institution_id : Nat) (today : Int) :
    (Option Participant × Option String) × DB :=
  match db.participants.find?
      (fun q => q.id == participant_id && q.institution_id == institution_id) with
  | none => ((none, some "Participant not found"), db)
  | some p =>
    match updateBirthDate (applyBasicUpdates p data) data.birth_date with
    | Except.error e => ((none, some e), db)
    | Except.ok p2 =>
      let p3 := recalcDivision p2 today
      ((some p3, none),
        { db with participants :=
            db.participants.map (fun q => if q.id == participant_id then p3 else q) })

/-! ## SeasonEvent deletion (admin.py `api_delete_season_event`) -/

/-- admin.py 298-319: delete the Stage children, then the SeasonEvent itself.
Registrations, Results and bib assignments are not touched (the hard-delete
block is commented out in the source).  `none` models the 404. -/
def api_delete_season_event (db : DB) (se_id : Nat) : Option (DB × Nat) :=
  match db.seasonEvents.find? (fun se => se.id == se_id) with
  | none => none
  | some se =>
    some
      ({ db with
          stages := db.stages.filter (fun st => st.season_event_id != se.id),
          seasonEvents := db.seasonEvents.filter (fun x => x.id != se.id) },
        se_id)

/-! ## Concrete stores used by witnesses and counterexamples -/

/-- An empty store. -/
def emptyDB : DB :=
  { users := [], institutions := [], seasons := [], events := [], seasonEvents := [],
    stages := [], participants := [], registrations := [], bibNos := [],
    bibNoAssignments := [], results := [],
    nextRegId := 1, nextBibId := 1, nextPartId := 1 }

/-- C1 witness store: bib 1 is a non-numeric legacy value for
(season 5, institution 2); bib 2 is "1001" for (season 5, institution 3). -/
def c1db : DB :=
  { emptyDB with
    bibNos := [⟨1, "legacy-A", 5, some 2⟩, ⟨2, "1001", 5, some 3⟩],
    nextBibId := 3 }

/-- C2 witness store: one participant of institution 1 and one SeasonEvent,
no registrations yet. -/
def c2db : DB :=
  { emptyDB with
    seasons := [⟨1, 2024⟩],
    events := [⟨1, "Walk", "Walk"⟩],
    seasonEvents := [⟨1, 1, 1, "active"⟩],
    participants := [⟨1, "A", "B", none, none, none, none, none, 1⟩] }

/-- C3 witness store: one registration with a result in season 1. -/
def c3db : DB :=
  { emptyDB with
    seasons := [⟨1, 2024⟩],
    events := [⟨1, "Walk", "Walk"⟩],
    seasonEvents := [⟨1, 1, 1, "active"⟩],
    stages := [⟨1, 1, some 1, none⟩],
    participants := [⟨1, "A", "B", none, none, none, none, none, 1⟩],
    registrations := [⟨1, 1, 1⟩, ⟨2, 1, 1⟩],
    results := [⟨1, 1, 1, some 1⟩],
    nextRegId := 3, nextBibId := 1 }

/-- C4 counterexample store: season 1 holds two events; each has one
registration whose result carries a placement.  With filters
(season 1, event 1) the code counts both results as `completed`. -/
def c4db : DB :=
  { emptyDB with
    seasons := [⟨1, 2024⟩],
    events := [⟨1, "A", "Run"⟩, ⟨2, "B", "Walk"⟩],
    seasonEvents := [⟨1, 1, 1, "active"⟩, ⟨2, 1, 2, "active"⟩],
    stages := [⟨1, 1, some 1, none⟩, ⟨2, 2, some 1, none⟩],
    participants := [⟨1, "A", "B", none, none, none, none, none, 1⟩],
    registrations := [⟨1, 1, 1⟩, ⟨2, 1, 2⟩],
    results := [⟨1, 1, 1, some 1⟩, ⟨2, 2, 2, some 1⟩],
    nextRegId := 3 }

/-- C5 witness store: a SeasonEvent with two stages listed out of order, two
registrations, two finishers at stage number 1 and one at stage number 2. -/
def c5db : DB :=
  { emptyDB with
    seasons := [⟨1, 2024⟩],
    events := [⟨1, "Urban", "Run"⟩],
    seasonEvents := [⟨1, 1, 1, "active"⟩],
    stages := [⟨1, 1, some 2, none⟩, ⟨2, 1, some 1, none⟩],
    participants := [⟨1, "A", "B", none, none, none, none, none, 1⟩,
                     ⟨2, "C", "D", none, none, none, none, none, 1⟩],
    registrations := [⟨1, 1, 1⟩, ⟨2, 2, 1⟩],
    results := [⟨1, 1, 2, none⟩, ⟨2, 2, 2, none⟩, ⟨3, 1, 1, none⟩],
    nextRegId := 3 }

/-- C6 witness store: year 2023 has one registration, year 2024 has two. -/
def c6db : DB :=
  { emptyDB with
    seasons := [⟨1, 2023⟩, ⟨2, 2024⟩],
    events := [⟨1, "Walk", "Walk"⟩],
    seasonEvents := [⟨1, 1, 1, "active"⟩, ⟨2, 2, 1, "active"⟩],
    participants := [⟨1, "A", "B", none, none, none, none, none, 1⟩],
    registrations := [⟨1, 1, 1⟩, ⟨2, 1, 2⟩, ⟨3, 1, 2⟩],
    nextRegId := 4 }

/-- C7 counterexample store: the season with year 2025 was created first
(id 1); the most recently created season (id 2) has year 2024. -/
def c7db : DB :=
  { emptyDB with seasons := [⟨1, 2025⟩, ⟨2, 2024⟩] }

/-- C8 counterexample participant: sex absent, a stored division. -/
def c8p : Participant :=
  { id := 1, first_name := "A", last_name := "B", birth_date := some 0,
    sex := none, division := some "M2029", contact := none, email := none,
    institution_id := 1 }

def c8db : DB := { emptyDB with participants := [c8p] }

/-- An update request touching no field. -/
def emptyUpdate : UpdateData :=
  { first_name := none, last_name := none, email := none, contact := none,
    sex := none, birth_date := none }

/-- C8 witness participant: sex M, born at ordinal 0. -/
def c8q : Participant :=
  { id := 1, first_name := "A", last_name := "B", birth_date := some 0,
    sex := some "M", division := none, contact := none, email := none,
    institution_id := 1 }

def c8db2 : DB := { emptyDB with participants := [c8q] }

/-- C9 counterexample input: valid names, unparseable birth date. -/
def c9input : PartInput :=
  { first_name := some "A", last_name := some "B", birth_date := some "notadate",
    sex := none, division := none, email := none, contact := none }

/-- C10 witness store: one SeasonEvent with a stage, a registration, a result
and a bib assignment hanging off it. -/
def c10db : DB :=
  { emptyDB with
    seasons := [⟨1, 2024⟩],
    events := [⟨1, "Walk", "Walk"⟩],
    seasonEvents := [⟨1, 1, 1, "active"⟩],
    stages := [⟨1, 1, some 1, none⟩],
    registrations := [⟨1, 1, 1⟩],
    bibNos := [⟨1, "1001", 1, some 1⟩],
    bibNoAssignments := [⟨1, 1⟩],
    results := [⟨1, 1, 1, some 1⟩],
    nextRegId := 2, nextBibId := 2 }

/-! ## Theorems -/

/-- C1: for every (seasonId, institutionId) pair, `_next_bib` returns the
successor (as a string) of the numeric value of the most recently created
BibNo for the pair when one exists and parses as an integer; otherwise — no
BibNo for the pair, or a non-numeric legacy value — it returns the string of
`1001 + count of existing BibNo rows` for the pair, never failing on
non-numeric values. -/
theorem c1_next_bib (db : DB) (sid iid : Nat) :
    (∀ b n, latestBibBy (bibsFor db sid iid) = some b → pyInt? b.bib_value = some n →
      _next_bib db sid iid = toString (n + 1)) ∧
    (latestBibBy (bibsFor db sid iid) = none →
      _next_bib db sid iid = toString (1001 + (bibsFor db sid iid).length)) ∧
    (∀ b, latestBibBy (bibsFor db sid iid) = some b → pyInt? b.bib_value = none →
      _next_bib db sid iid = toString (1001 + (bibsFor db sid iid).length)) := by
  refine ⟨?_, ?_, ?_⟩
  · intro b n hb hn
    simp [_next_bib, hb, hn]
  · intro hb
    simp [_next_bib, hb]
  · intro b hb hn
    simp [_next_bib, hb, hn]

theorem c1_next_bib_witness :
    _next_bib c1db 5 3 = toString ((1001 : Int) + 1) ∧
    _next_bib c1db 5 2 = toString (1001 + (bibsFor c1db 5 2).length) :=
  ⟨(c1_next_bib c1db 5 3).1 ⟨2, "1001", 5, some 3⟩ 1001 (by decide) (by decide),
   (c1_next_bib c1db 5 2).2.2 ⟨1, "legacy-A", 5, some 2⟩ (by decide) (by decide)⟩

/-- C10: deleting a SeasonEvent removes it and all of its Stage rows, while
the registrations referencing it, their Results, the bib numbers and the bib
assignments are all left unchanged. -/
theorem c10_delete_season_event (db : DB) (se_id : Nat) (db' : DB) (deleted : Nat)
    (h : api_delete_season_event db se_id = some (db', deleted)) :
    db'.registrations = db.registrations ∧
    db'.results = db.results ∧
    db'.bibNoAssignments = db.bibNoAssignments ∧
    db'.bibNos = db.bibNos ∧
    db'.stages = db.stages.filter (fun st => st.season_event_id != se_id) ∧
    db'.seasonEvents = db.seasonEvents.filter (fun x => x.id != se_id) ∧
    (∀ se ∈ db'.seasonEvents, se.id ≠ se_id) ∧
    (∀ st ∈ db'.stages, st.season_event_id ≠ se_id) := by
  unfold api_delete_season_event at h
  cases hf : db.seasonEvents.find? (fun se => se.id == se_id) with
  | none => rw [hf] at h; exact absurd h (by simp)
  | some se =>
    rw [hf] at h
    have hid : se.id = se_id := by
      have := List.find?_some hf
      simpa using this
    cases h
    subst hid
    refine ⟨rfl, rfl, rfl, rfl, rfl, rfl, ?_, ?_⟩
    · intro x hx
      have := List.of_mem_filter hx
      simpa using this
    · intro x hx
      have := List.of_mem_filter hx
      simpa using this

theorem c10_delete_season_event_witness :
    ∃ db' : DB, api_delete_season_event c10db 1 = some (db', 1) ∧
      db'.registrations = c10db.registrations ∧
      db'.results = c10db.results ∧
      db'.bibNoAssignments = c10db.bibNoAssignments ∧
      db'.stages = [] ∧ db'.seasonEvents = [] := by
  refine ⟨{ c10db with stages := [], seasonEvents := [] }, by decide, ?_⟩
  have h := c10_delete_season_event c10db 1 { c10db with stages := [], seasonEvents := [] } 1
    (by decide)
  exact ⟨h.1, h.2.1, h.2.2.1, by decide, by decide⟩

/-- C7 counterexample: in a store where the season with the greatest year
(2025) was created before the most recent season (2024), `api_stats` reports
2025, not the year of the most recently created Season. -/
theorem c7_stats_counterexample :
    (api_stats c7db).current_season = some 2025 ∧
    (latestSeasonById c7db).map (fun s => s.year) = some 2024 ∧
    (api_stats c7db).current_season ≠ (latestSeasonById c7db).map (fun s => s.year) := by
  refine ⟨by decide, by decide, by decide⟩

/-- C7 (amended): `api_stats` returns the total count of User records, the
count of SeasonEvents whose status is "active", and the year of the Season
with the GREATEST YEAR (not the most recently created one), with the `none`
sentinel when no Season exists. -/
theorem c7_stats (db : DB) :
    (api_stats db).total_users = db.users.length ∧
    (api_stats db).active_events
      = (db.seasonEvents.filter (fun se => se.status == "active")).length ∧
    ((api_stats db).current_season = none ↔ db.seasons = []) ∧
    (∀ y, (api_stats db).current_season = some y →
      (∃ s ∈ db.seasons, s.year = y) ∧ ∀ s ∈ db.seasons, s.year ≤ y) := by
  refine ⟨rfl, rfl, ?_, ?_⟩
  · constructor
    · intro h
      have : latestSeasonByYear db = none := by
        simpa [api_stats, Option.map_eq_none'] using h
      simpa [latestSeasonByYear, List.argmax_eq_none] using this
    · intro h
      simp [api_stats, latestSeasonByYear, h]
  · intro y hy
    simp only [api_stats, latestSeasonByYear] at hy
    obtain ⟨m, hm, hmy⟩ := Option.map_eq_some'.mp hy
    have hmem : m ∈ db.seasons := List.argmax_mem hm
    refine ⟨⟨m, hmem, hmy⟩, ?_⟩
    intro s hs
    have := List.le_of_mem_argmax hs hm
    simpa [hmy] using this

theorem c7_stats_witness :
    (∃ s ∈ c7db.seasons, s.year = 2025) ∧ ∀ s ∈ c7db.seasons, s.year ≤ 2025 :=
  (c7_stats c7db).2.2.2 2025 (by decide)

/-- C3: for every store and filter combination the metrics satisfy
`registered = participated + no_shows`; when `registered` is 0 every
percentage field is the literal "0%" (no division happens), and otherwise
each percentage is the half-even rounding of `n/registered*100` to one
decimal, rendered with a trailing "%". -/
theorem c3_metrics (db : DB) (so eo : Option Nat) :
    ((api_metrics db so eo).registered : Int)
      = ((api_metrics db so eo).participated : Int) + (api_metrics db so eo).no_shows ∧
    ((api_metrics db so eo).registered = 0 →
      (api_metrics db so eo).participated_pct = "0%" ∧
      (api_metrics db so eo).no_shows_pct = "0%" ∧
      (api_metrics db so eo).completed_pct = "0%") ∧
    ((api_metrics db so eo).registered ≠ 0 →
      (api_metrics db so eo).participated_pct
        = fmtTenths (pyRound (((api_metrics db so eo).participated * 1000 : ℚ)
            / ((api_metrics db so eo).registered : ℚ))) ++ "%" ∧
      (api_metrics db so eo).no_shows_pct
        = fmtTenths (pyRound (((api_metrics db so eo).no_shows * 1000 : ℚ)
            / ((api_metrics db so eo).registered : ℚ))) ++ "%" ∧
      (api_metrics db so eo).completed_pct
        = fmtTenths (pyRound (((api_metrics db so eo).completed * 1000 : ℚ)
            / ((api_metrics db so eo).registered : ℚ))) ++ "%") := by
  refine ⟨?_, ?_, ?_⟩
  · simp [api_metrics]
  · intro h
    simp only [api_metrics] at h ⊢
    refine ⟨?_, ?_, ?_⟩ <;> simp [pct, h]
  · intro h
    simp only [api_metrics] at h ⊢
    refine ⟨?_, ?_, ?_⟩ <;> simp [pct, h]

theorem c3_metrics_witness :
    ((api_metrics emptyDB none none).registered = 0 ∧
      (api_metrics emptyDB none none).participated_pct = "0%" ∧
      (api_metrics emptyDB none none).no_shows_pct = "0%" ∧
      (api_metrics emptyDB none none).completed_pct = "0%") ∧
    ((api_metrics c3db (some 1) none).registered ≠ 0 ∧
      (api_metrics c3db (some 1) none).participated_pct
        = fmtTenths (pyRound (((api_metrics c3db (some 1) none).participated * 1000 : ℚ)
            / ((api_metrics c3db (some 1) none).registered : ℚ))) ++ "%") :=
  ⟨⟨by decide, (c3_metrics emptyDB none none).2.1 (by decide)⟩,
   ⟨by decide, ((c3_metrics c3db (some 1) none).2.2 (by decide)).1⟩⟩

/-- With no event filter the metrics filter degenerates to the season-only
filter used on `completed`. -/
theorem seFilter_no_event (db : DB) (so : Option Nat) (se_id : Nat) :
    seFilter db so none se_id = seSeasonFilter db so se_id := by
  cases so <;> simp [seFilter, seSeasonFilter]

/-- C4 counterexample: with filters (season 1, event 1) over `c4db`,
`api_metrics` reports `completed = 2`, counting the placement-carrying result
of event 2 as well; the claimed season-AND-event count is 1. -/
theorem c4_completed_counterexample :
    (api_metrics c4db (some 1) (some 1)).completed = 2 ∧
    specCompletedCount c4db (some 1) (some 1) = 1 ∧
    (api_metrics c4db (some 1) (some 1)).completed
      ≠ specCompletedCount c4db (some 1) (some 1) := by
  refine ⟨by decide, by decide, by decide⟩

/-- C4 (amended): `completed` counts the Result rows with a non-null
placement whose Registration's SeasonEvent matches the season filter; the
event filter is never applied to this count, so it is insensitive to
`event_id` and coincides with the spec-side count taken with no event
filter. -/
theorem c4_completed (db : DB) (so eo eo' : Option Nat) :
    (api_metrics db so eo).completed = completedCount db so ∧
    (api_metrics db so eo).completed = (api_metrics db so eo').completed ∧
    completedCount db so = specCompletedCount db so none := by
  refine ⟨rfl, rfl, ?_⟩
  unfold completedCount specCompletedCount
  congr 1
  apply List.filter_congr
  intro res _
  simp only [seFilter_no_event]

/-- C5: whenever the funnel resolves a SeasonEvent, a zero registration count
makes every stage's drop_pct exactly 0 (no division is attempted); with
registered > 0 each stage's drop_pct is `round((1 - finishers/registered) *
100, 1)`; the stages come back ordered by stage_number ascending with null
stage numbers treated as 0; and each entry's `finishers` is the count of
Result rows at that stage. -/
theorem c5_funnel (db : DB) (sid eid : Nat) (resp : FunnelResp)
    (h : api_funnel db sid eid = some resp) :
    (resp.registered = 0 → ∀ e ∈ resp.funnel, e.drop_pct = 0) ∧
    (resp.registered ≠ 0 → ∀ e ∈ resp.funnel,
      e.drop_pct = pyRound1 ((1 - (e.finishers : ℚ) / (resp.registered : ℚ)) * 100)) ∧
    List.Sorted (· ≤ ·) (resp.funnel.map (fun e => e.stage_number.getD 0)) ∧
    (∃ se, db.seasonEvents.find? (fun x => x.season_id == sid && x.event_id == eid) = some se ∧
      resp.registered
        = (db.registrations.filter (fun r => r.season_event_id == se.id)).length ∧
      ∀ e ∈ resp.funnel, ∃ st, st ∈ db.stages ∧ st.season_event_id = se.id ∧
        e.stage_number = st.stage_number ∧
        e.finishers = (db.results.filter (fun res => res.stage_id == st.id)).length) := by
  unfold api_funnel at h
  cases hf : db.seasonEvents.find? (fun x => x.season_id == sid && x.event_id == eid) with
  | none => rw [hf] at h; exact absurd h (by simp)
  | some se =>
    rw [hf] at h
    have hresp := (Option.some.injEq _ _).mp h
    subst hresp
    simp only []
    constructor
    · intro h0 e he
      obtain ⟨st, _, hst⟩ := List.mem_map.mp he
      rw [h0] at hst
      simp only [ne_eq, not_true_eq_false, if_false] at hst
      rw [← hst]
    constructor
    · intro h0 e he
      obtain ⟨st, _, hst⟩ := List.mem_map.mp he
      rw [← hst]
      simp only [ne_eq, h0, not_false_eq_true, if_true]
    constructor
    · haveI : IsTotal Stage (fun a b => stageKey a ≤ stageKey b) :=
        ⟨fun a b => le_total (stageKey a) (stageKey b)⟩
      haveI : IsTrans Stage (fun a b => stageKey a ≤ stageKey b) :=
        ⟨fun _ _ _ hab hbc => le_trans hab hbc⟩
      rw [List.map_map]
      have hs : List.Sorted (fun a b => stageKey a ≤ stageKey b)
          (sortStages (db.stages.filter (fun st => st.season_event_id == se.id))) :=
        List.sorted_insertionSort _ _
      exact List.pairwise_map.mpr hs
    · refine ⟨se, rfl, rfl, ?_⟩
      intro e he
      obtain ⟨st, hmem, hst⟩ := List.mem_map.mp he
      have hmem2 : st ∈ db.stages.filter (fun x => x.season_event_id == se.id) := by
        simpa [sortStages] using hmem
      refine ⟨st, List.mem_of_mem_filter hmem2, ?_, ?_, ?_⟩
      · have := List.of_mem_filter hmem2
        simpa using this
      · rw [← hst]
      · rw [← hst]

theorem c5_funnel_witness :
    ∃ resp, api_funnel c5db 1 1 = some resp ∧
      resp.registered = 2 ∧
      resp.funnel.map (fun e => e.stage_number) = [some 1, some 2] ∧
      resp.funnel.map (fun e => e.finishers) = [2, 1] ∧
      List.Sorted (· ≤ ·) (resp.funnel.map (fun e => e.stage_number.getD 0)) ∧
      (∀ e ∈ resp.funnel,
        e.drop_pct = pyRound1 ((1 - (e.finishers : ℚ) / (resp.registered : ℚ)) * 100)) := by
  refine ⟨_, rfl, by decide, by decide, by decide, ?_, ?_⟩
  · exact (c5_funnel c5db 1 1 _ rfl).2.2.1
  · exact (c5_funnel c5db 1 1 _ rfl).2.1 (by decide)

/-- Rounding an integer-valued rational changes nothing. -/
theorem pyRound_intCast (n : ℤ) : pyRound (n : ℚ) = n := by
  have hnum : ((n : ℚ)).num = n := Rat.num_intCast n
  have hden : ((n : ℚ)).den = 1 := Rat.den_intCast n
  have hfloor : ratFloor (n : ℚ) = n := by
    rw [ratFloor, hnum, hden]
    simp [Int.fdiv_one]
  simp only [pyRound, hfloor]
  rw [sub_self]
  norm_num

/-- Membership in the grouped-by-year list: exactly the years of seasons that
own at least one registration. -/
theorem mem_yearsWithRegs (db : DB) (y : Int) :
    y ∈ yearsWithRegs db ↔ (∃ s ∈ db.seasons, s.year = y) ∧ 0 < regYearCount db y := by
  simp [yearsWithRegs, List.mem_filter, List.mem_map, and_assoc]

theorem nodup_yearsWithRegs (db : DB) : (yearsWithRegs db).Nodup := by
  unfold yearsWithRegs
  have h := List.perm_insertionSort (fun a b : Int => a ≤ b)
    (((db.seasons.map (fun s => s.year)).filter
      (fun y => decide (0 < regYearCount db y))).dedup)
  exact h.nodup_iff.mpr (List.nodup_dedup _)

/-- C6: one entry per season year owning at least one registration, each with
`pct = round(count / max(counts) * 100)`, the years pairwise distinct; and the
year carrying the maximum count has pct exactly 100. -/
theorem c6_participation_by_year (db : DB)
    (h : api_participation_by_year db ≠ []) :
    (∀ e ∈ api_participation_by_year db,
      0 < e.count ∧ e.count = regYearCount db e.year ∧
      e.pct = pyRound (((e.count : ℚ) / (maxYearCount db : ℚ)) * 100)) ∧
    ((api_participation_by_year db).map (fun e => e.year)).Nodup ∧
    (∀ y : Int, ((∃ s ∈ db.seasons, s.year = y) ∧ 0 < regYearCount db y) ↔
      ∃ e ∈ api_participation_by_year db, e.year = y) ∧
    (∃ e ∈ api_participation_by_year db, e.count = maxYearCount db ∧ e.pct = 100) := by
  have hyears : (api_participation_by_year db).map (fun e => e.year) = yearsWithRegs db := by
    unfold api_participation_by_year
    rw [List.map_map]
    exact List.map_id _
  refine ⟨?_, ?_, ?_, ?_⟩
  · intro e he
    obtain ⟨y, hy, hey⟩ := List.mem_map.mp he
    subst hey
    refine ⟨((mem_yearsWithRegs db y).mp hy).2, rfl, rfl⟩
  · rw [hyears]; exact nodup_yearsWithRegs db
  · intro y
    rw [mem_yearsWithRegs db y |>.symm]
    constructor
    · intro hy
      exact ⟨⟨y, regYearCount db y, _⟩, List.mem_map_of_mem _ hy, rfl⟩
    · rintro ⟨e, he, hey⟩
      have : e.year ∈ (api_participation_by_year db).map (fun e => e.year) :=
        List.mem_map_of_mem _ he
      rw [hyears] at this
      exact hey ▸ this
  · -- the maximum count is attained and its pct is 100
    have hY : yearsWithRegs db ≠ [] := by
      intro hnil
      apply h
      unfold api_participation_by_year
      rw [hnil]
      rfl
    cases hM : ((yearsWithRegs db).map (regYearCount db)).maximum with
    | bot =>
      exfalso
      have := List.maximum_eq_bot.mp hM
      exact hY (List.map_eq_nil_iff.mp this)
    | coe m =>
      have hmax : maxYearCount db = m := by
        unfold maxYearCount
        rw [hM]
      have hmem : m ∈ (yearsWithRegs db).map (regYearCount db) := List.maximum_mem hM
      obtain ⟨y, hy, hcount⟩ := List.mem_map.mp hmem
      have hpos : 0 < regYearCount db y := ((mem_yearsWithRegs db y).mp hy).2
      refine ⟨⟨y, regYearCount db y, _⟩, List.mem_map_of_mem _ hy, ?_, ?_⟩
      · rw [hmax, ← hcount]
      · show pyRound (((regYearCount db y : ℚ) / (maxYearCount db : ℚ)) * 100) = 100
        rw [hmax, ← hcount]
        have hne : ((regYearCount db y : ℚ)) ≠ 0 := by
          have : regYearCount db y ≠ 0 := Nat.pos_iff_ne_zero.mp hpos
          exact_mod_cast this
        rw [div_self hne, one_mul]
        have : ((100 : ℤ) : ℚ) = (100 : ℚ) := by norm_num
        rw [← this, pyRound_intCast]

theorem c6_participation_by_year_witness :
    (∀ e ∈ api_participation_by_year c6db,
      0 < e.count ∧ e.count = regYearCount c6db e.year ∧
      e.pct = pyRound (((e.count : ℚ) / (maxYearCount c6db : ℚ)) * 100)) ∧
    (∃ e ∈ api_participation_by_year c6db, e.count = maxYearCount c6db ∧ e.pct = 100) :=
  ⟨(c6_participation_by_year c6db (by decide)).1,
   (c6_participation_by_year c6db (by decide)).2.2.2⟩

/-- The per-field updates never touch the division column. -/
theorem applyBasicUpdates_division (p : Participant) (data : UpdateData) :
    (applyBasicUpdates p data).division = p.division := by
  rcases data with ⟨fn, ln, em, ct, sx, bd⟩
  cases fn <;> cases ln <;> cases em <;> cases ct <;> cases sx <;> rfl

/-- Setting the birth date leaves sex and division alone, and only ever sets
the parsed date. -/
theorem updateBirthDate_fields (p p2 : Participant) (v : Option (Option String))
    (h : updateBirthDate p v = Except.ok p2) :
    p2.division = p.division ∧ p2.sex = p.sex := by
  unfold updateBirthDate at h
  rcases v with _ | v2
  · cases h; exact ⟨rfl, rfl⟩
  rcases v2 with _ | s
  · cases h; exact ⟨rfl, rfl⟩
  · by_cases hs : s = ""
    · simp [hs] at h
      cases h; exact ⟨rfl, rfl⟩
    · simp [hs] at h
      cases hp : isoParse? s with
      | none => rw [hp] at h; cases h
      | some d =>
        rw [hp] at h
        cases h
        exact ⟨rfl, rfl⟩

/-- C8 counterexample: updating a participant whose sex is absent leaves the
previously stored division in place — it is NOT left unset. -/
theorem c8_division_counterexample :
    (update_participant c8db 1 emptyUpdate 1 0).1.1 = some c8p ∧
    c8p.sex = none ∧ c8p.division = some "M2029" ∧ c8p.division ≠ none := by
  refine ⟨by decide, by decide, by decide, by decide⟩

/-- C8 (amended): on update the division is recomputed from (sex, birth
date) — uppercased first letter of sex plus the age bracket "2029"/"3039"/
"4049"/"5059"/"60+" — whenever both are present; when sex or birth date is
absent the recomputation yields nothing and the previously stored division is
KEPT (not unset). -/
theorem c8_division (db : DB) (pid : Nat) (data : UpdateData) (iid : Nat)
    (today : Int) (p' : Participant)
    (h : (update_participant db pid data iid today).1.1 = some p') :
    (∀ d, _calc_division p'.sex p'.birth_date today = some d → p'.division = some d) ∧
    (_calc_division p'.sex p'.birth_date today = none →
      ∀ p, db.participants.find? (fun q => q.id == pid && q.institution_id == iid) = some p →
        p'.division = p.division) ∧
    (∀ sx bd, sx = none ∨ bd = none → _calc_division sx bd today = none) ∧
    (∀ (sx : String) (bd : Int), sx ≠ "" →
      _calc_division (some sx) (some bd) today =
        some (String.singleton (sx.toList.headD ' ').toUpper ++
          (if Int.fdiv (today - bd) 365 < 20 then "2029"
           else if Int.fdiv (today - bd) 365 < 30 then "3039"
           else if Int.fdiv (today - bd) 365 < 40 then "4049"
           else if Int.fdiv (today - bd) 365 < 50 then "5059"
           else "60+"))) := by
  unfold update_participant at h
  cases hf : db.participants.find? (fun q => q.id == pid && q.institution_id == iid) with
  | none =>
    rw [hf] at h
    exact absurd h (by simp)
  | some p =>
    rw [hf] at h
    dsimp only at h
    cases hub : updateBirthDate (applyBasicUpdates p data) data.birth_date with
    | error e =>
      rw [hub] at h
      exact absurd h (by simp)
    | ok p2 =>
      rw [hub] at h
      dsimp only at h
      simp only [Option.some.injEq] at h
      have hp' : p' = recalcDivision p2 today := h.symm
      have hsex : p'.sex = p2.sex := by rw [hp']; rfl
      have hbd : p'.birth_date = p2.birth_date := by rw [hp']; rfl
      refine ⟨?_, ?_, ?_, ?_⟩
      · intro d hd
        rw [hp']
        rw [hsex, hbd] at hd
        show (match _calc_division p2.sex p2.birth_date today with
          | some d => some d
          | none => p2.division) = some d
        rw [hd]
      · intro hnone q hq
        have hqp : q = p := ((Option.some.injEq _ _).mp hq).symm
        subst hqp
        rw [hp']
        show (match _calc_division p2.sex p2.birth_date today with
          | some d => some d
          | none => p2.division) = q.division
        rw [hsex, hbd] at hnone
        rw [hnone]
        rw [(updateBirthDate_fields _ _ _ hub).1, applyBasicUpdates_division]
      · intro sx bd hor
        rcases hor with h1 | h1
        · subst h1; cases bd <;> rfl
        · subst h1; cases sx <;> rfl
      · intro sx bd hsx
        simp [_calc_division, hsx]

theorem c8_division_witness :
    ∃ p', (update_participant c8db2 1 emptyUpdate 1 9125).1.1 = some p' ∧
      p'.division = some "M3039" := by
  refine ⟨_, rfl, ?_⟩
  exact (c8_division c8db2 1 emptyUpdate 1 9125 _ rfl).1 "M3039" (by decide)

/-- C9 counterexample: `create_participant` with valid names and the
unparseable birth date "notadate" returns an error to the caller instead of
treating the date as absent. -/
theorem c9_date_counterexample :
    (create_participant emptyDB c9input 1 0).1.2
      = some "Invalid birth_date format: notadate" ∧
    (create_participant emptyDB c9input 1 0).1.1 = none ∧
    (create_participant emptyDB c9input 1 0).2 = emptyDB := by
  refine ⟨by decide, by decide, by decide⟩

/-- C9 (amended): the admin-side `_parse_date` helper maps every unparseable
or empty date to None without raising; but `create_participant` returns the
error string `'Invalid birth_date format: ...'` to the caller whenever the
supplied birth_date string does not parse as YYYY-MM-DD (and
`update_participant` likewise returns `'Invalid birth_date'`), leaving the
store untouched. -/
theorem c9_parse_date (db : DB) (data : PartInput) (iid : Nat) (today : Int)
    (s : String)
    (hfn : pyStrip (data.first_name.getD "") ≠ "")
    (hln : pyStrip (data.last_name.getD "") ≠ "")
    (hbd : data.birth_date = some s) (hs : s ≠ "") (hparse : isoParse? s = none) :
    create_participant db data iid today
      = ((none, some ("Invalid birth_date format: " ++ s)), db) ∧
    _parse_date (some s) = none ∧
    (∀ v, _parse_date v
      = match v with
        | none => none
        | some t => if t = "" then none else isoParse? t) := by
  refine ⟨?_, ?_, fun v => rfl⟩
  · unfold create_participant
    rw [hbd]
    simp [hfn, hln, hs, hparse]
  · simp [_parse_date, hs, hparse]

theorem c9_parse_date_witness :
    create_participant emptyDB c9input 1 0
      = ((none, some ("Invalid birth_date format: " ++ "notadate")), emptyDB) ∧
    _parse_date (some "notadate") = none :=
  ⟨(c9_parse_date emptyDB c9input 1 0 "notadate" (by decide) (by decide) rfl
      (by decide) (by decide)).1,
   (c9_parse_date emptyDB c9input 1 0 "notadate" (by decide) (by decide) rfl
      (by decide) (by decide)).2.1⟩
/-- Reduction of one loop iteration of `register_participant_for_events` in
the insertion branch: the three inserted rows written out. -/
theorem registerOne_insert (iid : Nat) (p : Participant) (d : DB) (se_id : Nat)
    (se : SeasonEvent)
    (hse : d.seasonEvents.find? (fun x => x.id == se_id) = some se)
    (hany : d.registrations.any
      (fun r => r.participant_id == p.id && r.season_event_id == se_id) = false) :
    registerOne iid p (d, []) se_id
      = ({ d with
            registrations := d.registrations ++ [⟨d.nextRegId, p.id, se_id⟩],
            nextRegId := d.nextRegId + 1,
            bibNos := d.bibNos ++
              [⟨d.nextBibId,
                _next_bib
                  { d with
                      registrations := d.registrations ++ [⟨d.nextRegId, p.id, se_id⟩],
                      nextRegId := d.nextRegId + 1 }
                  se.season_id iid,
                se.season_id, some iid⟩],
            nextBibId := d.nextBibId + 1,
            bibNoAssignments := d.bibNoAssignments ++ [⟨d.nextRegId, d.nextBibId⟩] },
        [⟨d.nextRegId,
          (d.events.find? (fun e => e.id == se.event_id)).map (fun e => e.name),
          _next_bib
            { d with
                registrations := d.registrations ++ [⟨d.nextRegId, p.id, se_id⟩],
                nextRegId := d.nextRegId + 1 }
            se.season_id iid⟩]) := by
  unfold registerOne
  dsimp only
  rw [hse]
  simp [hany]

/-- After inserting the fresh registration and its bib assignment, exactly one
registration and one assignment exist for the (participant, season-event)
pair, whatever the bib table looks like. -/
theorem counts_after_insert (db : DB) (pid se_id : Nat) (p : Participant)
    (bnos : List BibNo) (nri nbi : Nat)
    (hpid : p.id = pid)
    (hempty : regsForPair db pid se_id = [])
    (hfresh : ∀ a ∈ db.bibNoAssignments, a.registration_id ≠ db.nextRegId) :
    (regsForPair
        { db with
            registrations := db.registrations ++ [⟨db.nextRegId, p.id, se_id⟩],
            nextRegId := nri, bibNos := bnos, nextBibId := nbi,
            bibNoAssignments := db.bibNoAssignments ++ [⟨db.nextRegId, db.nextBibId⟩] }
        pid se_id).length = 1 ∧
    (assignmentsForPair
        { db with
            registrations := db.registrations ++ [⟨db.nextRegId, p.id, se_id⟩],
            nextRegId := nri, bibNos := bnos, nextBibId := nbi,
            bibNoAssignments := db.bibNoAssignments ++ [⟨db.nextRegId, db.nextBibId⟩] }
        pid se_id).length = 1 := by
  have hempty' : db.registrations.filter
      (fun r => r.participant_id == pid && r.season_event_id == se_id) = [] := hempty
  have hregs : regsForPair
      { db with
          registrations := db.registrations ++ [⟨db.nextRegId, p.id, se_id⟩],
          nextRegId := nri, bibNos := bnos, nextBibId := nbi,
          bibNoAssignments := db.bibNoAssignments ++ [⟨db.nextRegId, db.nextBibId⟩] }
      pid se_id = [⟨db.nextRegId, p.id, se_id⟩] := by
    unfold regsForPair
    dsimp only
    rw [List.filter_append, hempty']
    simp [hpid]
  refine ⟨by rw [hregs]; rfl, ?_⟩
  unfold assignmentsForPair
  rw [hregs]
  dsimp only
  rw [List.filter_append]
  have hold : db.bibNoAssignments.filter
      (fun a => [(⟨db.nextRegId, p.id, se_id⟩ : Registration)].any
        (fun r => r.id == a.registration_id)) = [] := by
    rw [List.filter_eq_nil_iff]
    intro a ha
    simp only [List.any_cons, List.any_nil, Bool.or_false]
    simp only [beq_iff_eq]
    exact fun hc => (hfresh a ha) hc.symm
  rw [hold]
  simp

/-- C2: with the participant resolved, (a) a seasonEventId that does not
resolve is skipped silently (no store change, no error); (b) a seasonEventId
the participant is already registered for is skipped silently; (c) a second
identical call is a no-op returning no error; (d) the call reports no error;
(e) registering a fresh (participant, season-event) pair leaves exactly one
Registration and exactly one bib assignment for the pair — so after two
identical calls exactly one of each exists. -/
theorem c2_register_idempotent (db : DB) (pid se_id iid : Nat) (p : Participant)
    (hp : db.participants.find? (fun q => q.id == pid && q.institution_id == iid) = some p) :
    (db.seasonEvents.find? (fun se => se.id == se_id) = none →
      register_participant_for_events db pid [se_id] iid = (([], none), db)) ∧
    (regsForPair db pid se_id ≠ [] →
      register_participant_for_events db pid [se_id] iid = (([], none), db)) ∧
    (register_participant_for_events
        (register_participant_for_events db pid [se_id] iid).2 pid [se_id] iid
      = (([], none), (register_participant_for_events db pid [se_id] iid).2)) ∧
    ((register_participant_for_events db pid [se_id] iid).1.2 = none) ∧
    (∀ se, db.seasonEvents.find? (fun x => x.id == se_id) = some se →
      regsForPair db pid se_id = [] →
      (∀ a ∈ db.bibNoAssignments, a.registration_id ≠ db.nextRegId) →
      (regsForPair (register_participant_for_events db pid [se_id] iid).2
          pid se_id).length = 1 ∧
      (assignmentsForPair (register_participant_for_events db pid [se_id] iid).2
          pid se_id).length = 1) := by
  have hpb := List.find?_some hp
  rw [Bool.and_eq_true] at hpb
  have hpid : p.id = pid := by simpa using hpb.1
  have hcall : ∀ d : DB, d.participants = db.participants →
      register_participant_for_events d pid [se_id] iid
        = (((registerOne iid p (d, []) se_id).2, none),
            (registerOne iid p (d, []) se_id).1) := by
    intro d hd
    unfold register_participant_for_events
    rw [hd, hp]
    rfl
  have hskip_none : ∀ d : DB,
      d.seasonEvents.find? (fun se => se.id == se_id) = none →
      registerOne iid p (d, []) se_id = (d, []) := by
    intro d hse
    unfold registerOne
    dsimp only
    rw [hse]
  have hskip_any : ∀ d : DB,
      d.registrations.any
        (fun r => r.participant_id == p.id && r.season_event_id == se_id) = true →
      registerOne iid p (d, []) se_id = (d, []) := by
    intro d hany
    unfold registerOne
    dsimp only
    cases hse : d.seasonEvents.find? (fun se => se.id == se_id) with
    | none => rfl
    | some se => simp [hany]
  have hany_of_pair : ∀ d : DB, regsForPair d pid se_id ≠ [] →
      d.registrations.any
        (fun r => r.participant_id == p.id && r.season_event_id == se_id) = true := by
    intro d hne
    obtain ⟨r, hr⟩ := List.exists_mem_of_ne_nil _ hne
    have hrmem : r ∈ d.registrations := List.mem_of_mem_filter hr
    have hrp := List.of_mem_filter hr
    rw [Bool.and_eq_true] at hrp
    apply List.any_eq_true.mpr
    refine ⟨r, hrmem, ?_⟩
    rw [Bool.and_eq_true]
    exact ⟨by rw [hpid]; exact hrp.1, hrp.2⟩
  refine ⟨?_, ?_, ?_, ?_, ?_⟩
  · intro hse
    rw [hcall db rfl, hskip_none db hse]
  · intro hne
    rw [hcall db rfl, hskip_any db (hany_of_pair db hne)]
  · rw [hcall db rfl]
    cases hse : db.seasonEvents.find? (fun se => se.id == se_id) with
    | none =>
      rw [hskip_none db hse]
      dsimp only
      rw [hcall db rfl, hskip_none db hse]
    | some se =>
      by_cases hany : db.registrations.any
          (fun r => r.participant_id == p.id && r.season_event_id == se_id) = true
      · rw [hskip_any db hany]
        dsimp only
        rw [hcall db rfl, hskip_any db hany]
      · have hanyf : db.registrations.any
            (fun r => r.participant_id == p.id && r.season_event_id == se_id) = false :=
          Bool.not_eq_true _ ▸ Bool.of_not_eq_true hany
        rw [registerOne_insert iid p db se_id se hse hanyf]
        dsimp only
        have h2 : registerOne iid p
            (({ db with
                registrations := db.registrations ++ [⟨db.nextRegId, p.id, se_id⟩],
                nextRegId := db.nextRegId + 1,
                bibNos := db.bibNos ++
                  [⟨db.nextBibId,
                    _next_bib
                      { db with
                          registrations := db.registrations ++ [⟨db.nextRegId, p.id, se_id⟩],
                          nextRegId := db.nextRegId + 1 }
                      se.season_id iid,
                    se.season_id, some iid⟩],
                nextBibId := db.nextBibId + 1,
                bibNoAssignments := db.bibNoAssignments ++ [⟨db.nextRegId, db.nextBibId⟩] } : DB), [])
            se_id
            = (({ db with
                registrations := db.registrations ++ [⟨db.nextRegId, p.id, se_id⟩],
                nextRegId := db.nextRegId + 1,
                bibNos := db.bibNos ++
                  [⟨db.nextBibId,
                    _next_bib
                      { db with
                          registrations := db.registrations ++ [⟨db.nextRegId, p.id, se_id⟩],
                          nextRegId := db.nextRegId + 1 }
                      se.season_id iid,
                    se.season_id, some iid⟩],
                nextBibId := db.nextBibId + 1,
                bibNoAssignments := db.bibNoAssignments ++ [⟨db.nextRegId, db.nextBibId⟩] } : DB),
              []) := by
          apply hskip_any
          dsimp only
          rw [List.any_append]
          simp
        refine (hcall ?_ ?_).trans ?_
        · rfl
        · rw [h2]
  · rw [hcall db rfl]
  · intro se hse hempty hfresh
    have hanyf : db.registrations.any
        (fun r => r.participant_id == p.id && r.season_event_id == se_id) = false := by
      rw [List.any_eq_false]
      intro r hr hcontra
      rw [Bool.and_eq_true] at hcontra
      have hmem : r ∈ regsForPair db pid se_id := by
        unfold regsForPair
        apply List.mem_filter.mpr
        refine ⟨hr, ?_⟩
        rw [Bool.and_eq_true]
        exact ⟨by rw [← hpid]; exact hcontra.1, hcontra.2⟩
      rw [hempty] at hmem
      exact absurd hmem (List.not_mem_nil r)
    rw [hcall db rfl, registerOne_insert iid p db se_id se hse hanyf]
    dsimp only
    exact counts_after_insert db pid se_id p _ _ _ hpid hempty hfresh

theorem c2_register_idempotent_witness :
    ((regsForPair (register_participant_for_events c2db 1 [1] 1).2 1 1).length = 1 ∧
      (assignmentsForPair (register_participant_for_events c2db 1 [1] 1).2 1 1).length = 1) ∧
    register_participant_for_events
        (register_participant_for_events c2db 1 [1] 1).2 1 [1] 1
      = (([], none), (register_participant_for_events c2db 1 [1] 1).2) :=
  ⟨(c2_register_idempotent c2db 1 1 1 ⟨1, "A", "B", none, none, none, none, none, 1⟩
        (by decide)).2.2.2.2
      ⟨1, 1, 1, "active"⟩ (by decide) (by decide) (by decide),
   (c2_register_idempotent c2db 1 1 1 ⟨1, "A", "B", none, none, none, none, none, 1⟩
        (by decide)).2.2.1⟩

end App
